import Mathlib

/-!
Shallow embedding of the sensu-puppet-handler plugin (Go) in Lean 4.

The embedding follows the current implementation (the variant that uses
github.com/sensu/core/v2 together with its test file): the `Handler`
configuration record, `validate`, `puppetHTTPClient`, `puppetNodeExists`,
`deregisterEntity` and `executeHandler`.  Pure helpers from the Go standard
library that the program calls (`net/url.Parse`, `URL.String`, `path.Join`,
`strings.TrimRight`, `net/http.StatusText`) are modelled here as well, for
the shapes of input the program feeds them (URLs without userinfo, query,
fragment or percent-escapes).  File reads and network requests are modelled
as explicit environment parameters; every definition is executable.
-/

deriving instance DecidableEq for Except

namespace PuppetHandler

/-- A decoded JSON value, as far as this program inspects one: the Go code
only compares a map entry against nil, so explicit null and scalar values
suffice.  A missing map key yields `null`, matching the nil interface that a
Go map lookup returns for an absent key. -/
inductive JsonVal where
  | null
  | bool (b : Bool)
  | num (n : Int)
  | str (s : String)
deriving DecidableEq, Repr

/-- A Go error value as this program distinguishes them: the SDK type
httpclient.HTTPError (carrying an HTTP status code) against every other
error (carried as its message). -/
inductive GoError where
  | msg (s : String)
  | httpErr (statusCode : Nat)
deriving DecidableEq, Repr

/-- corev2.Entity, restricted to the fields the handler reads. -/
structure Entity where
  ns : String
  name : String
  labels : List (String × String)
deriving DecidableEq, Repr

/-- corev2.Check, restricted to the fields the handler reads. -/
structure Check where
  name : String
deriving DecidableEq, Repr

/-- corev2.Event: the check and entity pointers may be nil. -/
structure Event where
  check : Option Check
  entity : Option Entity
deriving DecidableEq, Repr

/-- The Handler configuration struct of the plugin. -/
structure Handler where
  endpoint : String
  puppetCert : String
  puppetKey : String
  puppetCACert : String
  puppetInsecureSkipVerify : Bool
  puppetNodeName : String
  sensuAPIURL : String
  sensuAPIKey : String
  sensuCACert : String
deriving DecidableEq, Repr

/-- Go map lookup `m[k]` over a string-keyed JSON map: the zero value (a nil
interface, modelled as `JsonVal.null`) is returned when the key is absent. -/
def goMapGet (m : List (String × JsonVal)) (k : String) : JsonVal :=
  match m.find? (fun p => p.1 == k) with
  | some p => p.2
  | none => JsonVal.null

/-! ## Model of net/url (Parse and String) for this program

The URLs this program parses carry no userinfo, query, fragment or
percent-escapes, so those parts of net/url are modelled as identity or
dropped; scheme detection, authority splitting and path handling follow the
Go source. -/

/-- The parts of net/url.URL this program reads or writes. -/
structure URL where
  scheme : String
  opaquePart : String
  host : String
  path : String
deriving DecidableEq, Repr

def isSchemeAlpha (c : Char) : Bool :=
  ('a' ≤ c ∧ c ≤ 'z') ∨ ('A' ≤ c ∧ c ≤ 'Z')

def isSchemeDigitExtra (c : Char) : Bool :=
  ('0' ≤ c ∧ c ≤ '9') ∨ c = '+' ∨ c = '-' ∨ c = '.'

/-- Scans for a scheme delimiter, following net/url getScheme: letters may
appear anywhere in a scheme, digits and plus, minus, dot anywhere but first;
a colon at position zero is an error, a colon later delimits the scheme; any
other character means the whole input is scheme-free. -/
def getSchemeLoop (orig : List Char) (acc : List Char) :
    List Char → Except String (String × List Char)
  | [] => .ok ("", orig)
  | c :: cs =>
    if isSchemeAlpha c then
      getSchemeLoop orig (acc ++ [c]) cs
    else if isSchemeDigitExtra c then
      if acc = [] then .ok ("", orig) else getSchemeLoop orig (acc ++ [c]) cs
    else if c = ':' then
      if acc = [] then .error "missing protocol scheme"
      else .ok (String.mk acc, cs)
    else
      .ok ("", orig)

def getScheme (raw : List Char) : Except String (String × List Char) :=
  getSchemeLoop raw [] raw

/-- Splits a character list at the first occurrence of `c`; the delimiter is
kept in neither half. -/
def cutAtChar (c : Char) (l : List Char) : List Char × List Char :=
  (l.takeWhile (fun x => x ≠ c), (l.dropWhile (fun x => x ≠ c)).drop 1)

def listStartsWith (pre l : List Char) : Bool :=
  l.take pre.length = pre

/-- Authority parsing, for authorities without userinfo, IPv6 brackets or
percent-escapes: the host is the authority itself. -/
def parseAuthority (authority : List Char) : String :=
  String.mk authority

/-- Model of net/url.Parse for this program: scheme detection, lowering of
the scheme, fragment and query stripping, the opaque shortcut, the colon
check on the first path segment, authority extraction, and the remainder as
path. -/
def urlParse (raw : String) : Except String URL := do
  let noFrag := (cutAtChar '#' raw.data).1
  let (schemeRaw, rest0) ← getScheme noFrag
  let scheme := String.mk (schemeRaw.data.map Char.toLower)
  let rest := (cutAtChar '?' rest0).1
  if ¬ listStartsWith ['/'] rest then
    if scheme ≠ "" then
      return { scheme := scheme, opaquePart := String.mk rest, host := "", path := "" }
    else
      let seg := rest.takeWhile (fun x => x ≠ '/')
      if seg.contains ':' then
        throw "first path segment in URL cannot contain colon"
      else if listStartsWith ['/', '/'] rest then
        let after := rest.drop 2
        let authority := after.takeWhile (fun x => x ≠ '/')
        let rest1 := after.dropWhile (fun x => x ≠ '/')
        return { scheme := scheme, opaquePart := "", host := parseAuthority authority,
                 path := String.mk rest1 }
      else
        return { scheme := scheme, opaquePart := "", host := "", path := String.mk rest }
  else
    if (scheme ≠ "" ∨ ¬ listStartsWith ['/', '/', '/'] rest) ∧
        listStartsWith ['/', '/'] rest then
      let after := rest.drop 2
      let authority := after.takeWhile (fun x => x ≠ '/')
      let rest1 := after.dropWhile (fun x => x ≠ '/')
      return { scheme := scheme, opaquePart := "", host := parseAuthority authority,
               path := String.mk rest1 }
    else
      return { scheme := scheme, opaquePart := "", host := "", path := String.mk rest }

def hexUpperDigit (n : Nat) : Char :=
  if n < 10 then Char.ofNat (48 + n) else Char.ofNat (55 + n)

/-- Characters net/url leaves unescaped in a host: alphanumerics, the
unreserved marks, and the host-mode extras of shouldEscape. -/
def hostUnescaped (c : Char) : Bool :=
  c.isAlphanum ∨
    c ∈ ['-', '_', '.', '~', '!', '$', '&', Char.ofNat 39, '(', ')', '*', '+',
         ',', ';', '=', ':', '[', ']', '<', '>', '"']

/-- Percent-escaping of a host as URL.String performs it. -/
def escapeHost (s : String) : String :=
  String.mk (s.data.flatMap fun c =>
    if hostUnescaped c then [c]
    else ['%', hexUpperDigit (c.toNat / 16), hexUpperDigit (c.toNat % 16)])

/-- Model of net/url URL.String for URLs without userinfo, query or
fragment: scheme with a colon, the opaque shortcut, a double slash whenever
a scheme or host is present, the escaped host, and a slash inserted between
a host and a relative path. -/
def urlString (u : URL) : String :=
  let schemePart := if u.scheme ≠ "" then u.scheme ++ ":" else ""
  if u.opaquePart ≠ "" then
    schemePart ++ u.opaquePart
  else
    let auth := if u.scheme ≠ "" ∨ u.host ≠ "" then "//" else ""
    let hostPart := if u.host ≠ "" then escapeHost u.host else ""
    let slash :=
      if u.path ≠ "" ∧ ¬ listStartsWith ['/'] u.path.data ∧ u.host ≠ "" then "/" else ""
    schemePart ++ auth ++ hostPart ++ slash ++ u.path

/-! ## Model of path.Clean and path.Join for this program

The only paths joined are "" or "/" with the constant default API path, so
dot and dot-dot segment handling is not modelled: cleaning collapses slash
runs and preserves rootedness. -/

/-- Splits a character list on the slash separator, like strings.Split. -/
def splitOnSlash : List Char → List (List Char)
  | [] => [[]]
  | c :: cs =>
    if c = '/' then [] :: splitOnSlash cs
    else
      match splitOnSlash cs with
      | [] => [[c]]
      | g :: gs => (c :: g) :: gs

/-- Joins segment lists with a slash separator. -/
def joinSlash : List (List Char) → List Char
  | [] => []
  | [g] => g
  | g :: gs => g ++ '/' :: joinSlash gs

def pathClean (p : String) : String :=
  if p = "" then "."
  else
    let rooted := listStartsWith ['/'] p.data
    let comps := (splitOnSlash p.data).filter (fun s => s ≠ [])
    let joined := joinSlash comps
    if rooted then String.mk ('/' :: joined)
    else if joined = [] then "." else String.mk joined

def pathJoin (a b : String) : String :=
  if a = "" ∧ b = "" then ""
  else if a = "" then pathClean b
  else pathClean (a ++ "/" ++ b)

/-- Model of strings.TrimRight with the cutset "/": drops every trailing
slash. -/
def trimRightSlash (s : String) : String :=
  String.mk ((s.data.reverse.dropWhile (fun c => c = '/')).reverse)

/-- Model of net/http.StatusText for the status classes a PuppetDB or Sensu
backend can answer with; unknown codes map to the empty string, as in Go. -/
def statusText (code : Nat) : String :=
  if code = 100 then "Continue"
  else if code = 101 then "Switching Protocols"
  else if code = 200 then "OK"
  else if code = 201 then "Created"
  else if code = 202 then "Accepted"
  else if code = 203 then "Non-Authoritative Information"
  else if code = 204 then "No Content"
  else if code = 205 then "Reset Content"
  else if code = 206 then "Partial Content"
  else if code = 300 then "Multiple Choices"
  else if code = 301 then "Moved Permanently"
  else if code = 302 then "Found"
  else if code = 303 then "See Other"
  else if code = 304 then "Not Modified"
  else if code = 305 then "Use Proxy"
  else if code = 307 then "Temporary Redirect"
  else if code = 308 then "Permanent Redirect"
  else if code = 400 then "Bad Request"
  else if code = 401 then "Unauthorized"
  else if code = 402 then "Payment Required"
  else if code = 403 then "Forbidden"
  else if code = 404 then "Not Found"
  else if code = 405 then "Method Not Allowed"
  else if code = 406 then "Not Acceptable"
  else if code = 407 then "Proxy Authentication Required"
  else if code = 408 then "Request Timeout"
  else if code = 409 then "Conflict"
  else if code = 410 then "Gone"
  else if code = 411 then "Length Required"
  else if code = 412 then "Precondition Failed"
  else if code = 413 then "Request Entity Too Large"
  else if code = 414 then "Request URI Too Long"
  else if code = 415 then "Unsupported Media Type"
  else if code = 416 then "Requested Range Not Satisfiable"
  else if code = 417 then "Expectation Failed"
  else if code = 429 then "Too Many Requests"
  else if code = 500 then "Internal Server Error"
  else if code = 501 then "Not Implemented"
  else if code = 502 then "Bad Gateway"
  else if code = 503 then "Service Unavailable"
  else if code = 504 then "Gateway Timeout"
  else if code = 505 then "HTTP Version Not Supported"
  else ""

/-! ## validate -/

def defaultAPIPath : String := "pdb/query/v4/nodes"

/-- Embedding of validate from the plugin.  The Go function mutates the
global handler; here the (possibly rewritten) handler is returned together
with the error, `none` meaning success.  The five required-field checks use
the same length test as the source and run before any URL parsing; the
PuppetDB endpoint is normalized and written back before the Sensu API URL is
examined. -/
def validate (h : Handler) (ev : Event) : Handler × Option String :=
  if ev.check.isNone ∨ ev.entity.isNone then
    (h, some "invalid event")
  else if h.endpoint.length = 0 then
    (h, some "the PuppetDB API endpoint is required")
  else if h.puppetCert.length = 0 then
    (h, some "the path to the SSL certificate is required")
  else if h.puppetKey.length = 0 then
    (h, some "the path to the private key is required")
  else if h.sensuAPIURL.length = 0 then
    (h, some "the Sensu API URL is required")
  else if h.sensuAPIKey.length = 0 then
    (h, some "the Sensu API key is required")
  else
    match urlParse h.endpoint with
    | .error e => (h, some ("invalid PuppetDB API endpoint URL: " ++ e))
    | .ok u0 =>
      let u1 := if u0.scheme = "" then { u0 with host := "https://" } else u0
      if u1.host = "" then
        (h, some "invalid PuppetDB API endpoint URL")
      else
        let u2 := if u1.path = "" ∨ u1.path = "/" then
            { u1 with path := pathJoin u1.path defaultAPIPath }
          else u1
        let h1 := { h with endpoint := urlString u2 }
        match urlParse h1.sensuAPIURL with
        | .error e => (h1, some ("invalid Sensu API URL: " ++ e))
        | .ok v =>
          if v.scheme = "" then (h1, some "invalid Sensu API URL, missing scheme")
          else if v.host = "" then (h1, some "invalid Sensu API URL, missing host")
          else (h1, none)

/-! ## puppetHTTPClient -/

/-- A tls certificate and key pair, abstracted to the file contents that
were loaded. -/
structure KeyPair where
  certData : String
  keyData : String
deriving DecidableEq, Repr

/-- The tls.Config the Puppet HTTP client is built with, restricted to the
fields the program sets. -/
structure TLSClientConfig where
  certificates : List KeyPair
  rootCAs : String
  insecureSkipVerify : Bool
deriving DecidableEq, Repr

/-- Results of the file reads puppetHTTPClient performs, supplied by the
environment. -/
structure PuppetClientEnv where
  loadX509KeyPair : Except String KeyPair
  readCAFile : Except String String

/-- Embedding of puppetHTTPClient: loads the key pair and the CA
certificate, failing with the same wrapped messages as the source, and
builds the TLS client configuration, copying the insecure-skip-verify flag
from the handler configuration. -/
def puppetHTTPClient (h : Handler) (env : PuppetClientEnv) :
    Except String TLSClientConfig :=
  match env.loadX509KeyPair with
  | .error e => .error ("could not read the certificate/key: " ++ e)
  | .ok cert =>
    match env.readCAFile with
    | .error e => .error ("could not read the CA certificate: " ++ e)
    | .ok caCert =>
      .ok { certificates := [cert], rootCAs := caCert,
            insecureSkipVerify := h.puppetInsecureSkipVerify }

/-! ## puppetNodeExists -/

/-- An HTTP response from the PuppetDB inventory lookup: the status code and
the body as decoded by encoding/json into a string-keyed map, `none` when
the body does not decode. -/
structure HTTPResponse where
  statusCode : Nat
  bodyJSON : Option (List (String × JsonVal))
deriving DecidableEq, Repr

/-- Outcome of the GET against PuppetDB: a response, or a transport error. -/
inductive FetchResult where
  | resp (r : HTTPResponse)
  | netErr (e : GoError)
deriving DecidableEq, Repr

/-- The (bool, error) pair puppetNodeExists returns. -/
inductive NodeResult where
  | ok (nodeFound : Bool)
  | err (e : GoError)
deriving DecidableEq, Repr

/-- Node name resolution as the source performs it: the name starts as the
configured node-name flag and falls back to the entity name when that flag
is empty.  The entity labels are never consulted. -/
def resolveNodeName (h : Handler) (e : Entity) : String :=
  let name := h.puppetNodeName
  if h.puppetNodeName = "" then e.name else name

/-- The URL of the inventory GET request: the stored endpoint trimmed of
trailing slashes, a slash, and the resolved node name. -/
def puppetRequestURL (h : Handler) (e : Entity) : String :=
  trimRightSlash h.endpoint ++ "/" ++ resolveNodeName h e

/-- Embedding of puppetNodeExists, with the network exchange supplied as a
parameter.  On HTTP 200 the source decodes the body into `info` but then
allocates a fresh empty map `nodeInfo` and reads the deactivated entry from
that empty map; the embedding reproduces this exactly, so the decoded body
only matters through decode success. -/
def puppetNodeExists (h : Handler) (e : Entity) (fetch : FetchResult) :
    NodeResult :=
  match fetch with
  | .netErr err => .err err
  | .resp resp =>
    if resp.statusCode = 200 then
      match resp.bodyJSON with
      | none => .err (.msg "puppet node returned invalid response")
      | some _info =>
        let nodeInfo : List (String × JsonVal) := []
        let timeDeactivated := goMapGet nodeInfo "deactivated"
        if timeDeactivated ≠ JsonVal.null then .ok false
        else .ok true
    else if resp.statusCode = 404 then
      .ok false
    else
      .err (.msg ("unexpected HTTP status " ++ statusText resp.statusCode ++
        " while querying PuppetDB"))

/-! ## deregisterEntity -/

/-- A parsed x509 certificate, abstracted to its raw bytes. -/
structure X509Cert where
  raw : String
deriving DecidableEq, Repr

/-- The httpclient.CoreClientConfig the Sensu API client is built with. -/
structure CoreClientConfig where
  url : String
  apiKey : String
  caCert : Option X509Cert
  insecureSkipVerify : Bool
deriving DecidableEq, Repr

/-- Environment of deregisterEntity: the CA file read, the PEM decoder and
certificate parser outcomes, and the result of the delete request (`none`
meaning the delete succeeded). -/
structure DeregEnv where
  readCAFile : Except String String
  pemDecode : String → Option String
  x509Parse : String → Except String X509Cert
  deleteOutcome : Option GoError

/-- The optional CA certificate of the Sensu client configuration: loaded,
PEM-decoded and parsed only when the sensu-ca-cert path is set, with the
same three failure messages as the source. -/
def deregisterCACert (h : Handler) (env : DeregEnv) :
    Except String (Option X509Cert) :=
  if h.sensuCACert ≠ "" then
    match env.readCAFile with
    | .error e => .error ("unable to load sensu-ca-cert: " ++ e)
    | .ok pemCert =>
      match env.pemDecode pemCert with
      | none => .error "failed to decode sensu-ca-cert PEM"
      | some block =>
        match env.x509Parse block with
        | .error e => .error ("invalid sensu-ca-cert: " ++ e)
        | .ok cert => .ok (some cert)
  else .ok none

/-- The Sensu client configuration deregisterEntity builds: URL and API key
from the handler, the optional CA certificate, and insecure-skip-verify set
whenever the puppet insecure-skip-verify flag is set. -/
def deregisterConfig (h : Handler) (env : DeregEnv) :
    Except String CoreClientConfig :=
  match deregisterCACert h env with
  | .error e => .error e
  | .ok ca =>
    let config : CoreClientConfig :=
      { url := h.sensuAPIURL, apiKey := h.sensuAPIKey, caCert := ca,
        insecureSkipVerify := false }
    .ok (if h.puppetInsecureSkipVerify then
          { config with insecureSkipVerify := true }
        else config)

/-- Embedding of deregisterEntity: builds the client configuration, then
issues the delete.  A delete failure that is an HTTPError with status below
500 is swallowed; any other failure is returned unmodified.  The resource
request construction for the constant core/v2 Entity kind cannot fail and is
not modelled. -/
def deregisterEntity (h : Handler) (e : Entity) (env : DeregEnv) :
    Option GoError :=
  match deregisterConfig h env with
  | .error m => some (.msg m)
  | .ok _config =>
    match env.deleteOutcome with
    | none => none
    | some err =>
      match err with
      | .httpErr status => if status < 500 then none else some err
      | .msg _ => some err

/-! ## executeHandler -/

/-- Which outbound calls an execution performed: the inventory GET of
puppetNodeExists and the delete of deregisterEntity. -/
structure CallTrace where
  inventoryLookup : Bool
  deregistration : Bool
deriving DecidableEq, Repr

/-- Embedding of executeHandler, instrumented with the calls it makes.  A
nil check or entity would make the Go code panic on dereference; the SDK
only invokes executeHandler after validate has accepted the event, so that
branch is modelled as an error result with no calls. -/
def executeHandler (h : Handler) (ev : Event) (penv : PuppetClientEnv)
    (fetch : FetchResult) (denv : DeregEnv) : Option GoError × CallTrace :=
  match ev.check, ev.entity with
  | some check, some entity =>
    if check.name ≠ "keepalive" then
      (none, { inventoryLookup := false, deregistration := false })
    else
      match puppetHTTPClient h penv with
      | .error m => (some (.msg m), { inventoryLookup := false, deregistration := false })
      | .ok _client =>
        match puppetNodeExists h entity fetch with
        | .err e => (some e, { inventoryLookup := true, deregistration := false })
        | .ok nodeFound =>
          if nodeFound then
            (none, { inventoryLookup := true, deregistration := false })
          else
            (deregisterEntity h entity denv,
              { inventoryLookup := true, deregistration := true })
  | _, _ =>
    (some (.msg "panic: runtime error: invalid memory address or nil pointer dereference"),
      { inventoryLookup := false, deregistration := false })

/-! ## Concrete fixtures -/

/-- A configuration with every checked field present, mirroring the values
of the test file. -/
def handlerBase : Handler :=
  { endpoint := "http://127.0.0.1"
    puppetCert := "cert.pem"
    puppetKey := "key.pem"
    puppetCACert := "ca.pem"
    puppetInsecureSkipVerify := false
    puppetNodeName := ""
    sensuAPIURL := "http://localhost:8080"
    sensuAPIKey := "xxxxxxxxxx"
    sensuCACert := "" }

/-- An event with a keepalive check and a plain entity. -/
def eventOK : Event :=
  { check := some { name := "keepalive" }
    entity := some { ns := "default", name := "foo", labels := [] } }

/-- The entity of the fixture event. -/
def entFoo : Entity := { ns := "default", name := "foo", labels := [] }

/-- An event whose check is not the keepalive check. -/
def eventCPU : Event :=
  { check := some { name := "check-cpu" }, entity := some entFoo }

/-- A puppet client environment whose file reads succeed. -/
def penvOK : PuppetClientEnv :=
  { loadX509KeyPair := .ok { certData := "certdata", keyData := "keydata" }
    readCAFile := .ok "cadata" }

/-- A deregistration environment whose delete succeeds; handlerBase carries
no sensu CA path, so the decode functions are never consulted. -/
def denvOK : DeregEnv :=
  { readCAFile := .ok "cadata"
    pemDecode := fun s => some s
    x509Parse := fun s => .ok { raw := s }
    deleteOutcome := none }

/-! ## Helper lemmas -/

theorem strLenZero (s : String) : s.length = 0 ↔ s = "" := by
  cases s with
  | mk data =>
    constructor
    · intro h
      have hd : data = [] := List.length_eq_zero.mp h
      subst hd
      rfl
    · intro h
      rw [h]
      rfl

/-! ## Claims -/

/-- C1: the claim states that an HTTP 200 inventory response whose decoded
body carries a non-null deactivated field is classified NotExists (false
with no error).  The code instead reads the deactivated entry from a freshly
allocated empty map, never from the decoded body, so such a response is
classified Exists: this theorem evaluates the resolver at the failing input,
HTTP 200 with body deactivated = 1602, and obtains true with no error. -/
theorem c1_deactivated_body_classified_exists :
    puppetNodeExists handlerBase entFoo
      (.resp { statusCode := 200,
               bodyJSON := some [("deactivated", JsonVal.num 1602)] }) =
      NodeResult.ok true := by decide

/-- C2: the claim states that with no global override the label
puppet_node_name overrides the entity name.  The code never consults the
entity labels: with the node-name flag empty and an entity named bar
carrying the label puppet_node_name = foo, the resolved name and the GET
request URL use bar. -/
theorem c2_label_override_ignored :
    resolveNodeName handlerBase
      { ns := "default", name := "bar", labels := [("puppet_node_name", "foo")] }
      = "bar" ∧
    puppetRequestURL { handlerBase with endpoint := "http://127.0.0.1/pdb/query/v4/nodes" }
      { ns := "default", name := "bar", labels := [("puppet_node_name", "foo")] }
      = "http://127.0.0.1/pdb/query/v4/nodes/bar" := by decide

/-- C3 counterexample: a configuration whose CA certificate path is empty
but whose other fields are all present passes validation, so validation does
not fail for every configuration missing one of the six listed fields. -/
theorem c3_counterexample_ca_cert_not_checked :
    ({ handlerBase with puppetCACert := "" } : Handler).puppetCACert = "" ∧
    (validate { handlerBase with puppetCACert := "" } eventOK).2 = none := by decide

/-- C3 amended: for every configuration in which one of the inventory
endpoint, client certificate path, client key path, monitoring API URL or
monitoring API key is empty, validation returns a distinguishable error
identifying the first missing field in that order, before any URL parsing;
the CA certificate path is not among the checked fields. -/
theorem c3_required_fields_checked_in_order :
    ∀ (h : Handler) (ev : Event), ev.check.isSome → ev.entity.isSome →
      (h.endpoint = "" →
        validate h ev = (h, some "the PuppetDB API endpoint is required")) ∧
      (h.endpoint ≠ "" → h.puppetCert = "" →
        validate h ev = (h, some "the path to the SSL certificate is required")) ∧
      (h.endpoint ≠ "" → h.puppetCert ≠ "" → h.puppetKey = "" →
        validate h ev = (h, some "the path to the private key is required")) ∧
      (h.endpoint ≠ "" → h.puppetCert ≠ "" → h.puppetKey ≠ "" → h.sensuAPIURL = "" →
        validate h ev = (h, some "the Sensu API URL is required")) ∧
      (h.endpoint ≠ "" → h.puppetCert ≠ "" → h.puppetKey ≠ "" → h.sensuAPIURL ≠ "" →
        h.sensuAPIKey = "" →
        validate h ev = (h, some "the Sensu API key is required")) ∧
      ([ "the PuppetDB API endpoint is required",
         "the path to the SSL certificate is required",
         "the path to the private key is required",
         "the Sensu API URL is required",
         "the Sensu API key is required" ] : List String).Nodup := by
  intro h ev hc he
  obtain ⟨c, hc'⟩ := Option.isSome_iff_exists.mp hc
  obtain ⟨e, he'⟩ := Option.isSome_iff_exists.mp he
  refine ⟨?_, ?_, ?_, ?_, ?_, by decide⟩
  · intro h1
    have l1 : h.endpoint.length = 0 := (strLenZero _).mpr h1
    simp [validate, hc', he', l1]
  · intro h1 h2
    have l1 : ¬ h.endpoint.length = 0 := fun hh => h1 ((strLenZero _).mp hh)
    have l2 : h.puppetCert.length = 0 := (strLenZero _).mpr h2
    simp [validate, hc', he', l1, l2]
  · intro h1 h2 h3
    have l1 : ¬ h.endpoint.length = 0 := fun hh => h1 ((strLenZero _).mp hh)
    have l2 : ¬ h.puppetCert.length = 0 := fun hh => h2 ((strLenZero _).mp hh)
    have l3 : h.puppetKey.length = 0 := (strLenZero _).mpr h3
    simp [validate, hc', he', l1, l2, l3]
  · intro h1 h2 h3 h4
    have l1 : ¬ h.endpoint.length = 0 := fun hh => h1 ((strLenZero _).mp hh)
    have l2 : ¬ h.puppetCert.length = 0 := fun hh => h2 ((strLenZero _).mp hh)
    have l3 : ¬ h.puppetKey.length = 0 := fun hh => h3 ((strLenZero _).mp hh)
    have l4 : h.sensuAPIURL.length = 0 := (strLenZero _).mpr h4
    simp [validate, hc', he', l1, l2, l3, l4]
  · intro h1 h2 h3 h4 h5
    have l1 : ¬ h.endpoint.length = 0 := fun hh => h1 ((strLenZero _).mp hh)
    have l2 : ¬ h.puppetCert.length = 0 := fun hh => h2 ((strLenZero _).mp hh)
    have l3 : ¬ h.puppetKey.length = 0 := fun hh => h3 ((strLenZero _).mp hh)
    have l4 : ¬ h.sensuAPIURL.length = 0 := fun hh => h4 ((strLenZero _).mp hh)
    have l5 : h.sensuAPIKey.length = 0 := (strLenZero _).mpr h5
    simp [validate, hc', he', l1, l2, l3, l4, l5]

/-- C3 witness: a configuration with an empty endpoint fails with the
endpoint error message. -/
theorem c3_required_fields_checked_in_order_w :
    validate { handlerBase with endpoint := "" } eventOK =
      ({ handlerBase with endpoint := "" },
        some "the PuppetDB API endpoint is required") :=
  (c3_required_fields_checked_in_order { handlerBase with endpoint := "" } eventOK
    (by decide) (by decide)).1 rfl

/-- C4: the claim states that validation fails whenever the endpoint parses
with a missing host, for example the endpoint foo, and that after successful
validation the stored endpoint has a non-empty scheme.  The code instead
assigns the string https:// to the host field when the scheme is empty, so
the endpoint foo, which parses with empty scheme and empty host, passes
validation, and the stored endpoint is rewritten to a scheme-less string. -/
theorem c4_endpoint_without_host_passes_validation :
    urlParse "foo" =
      .ok { scheme := "", opaquePart := "", host := "", path := "foo" } ∧
    validate { handlerBase with endpoint := "foo" } eventOK =
      ({ handlerBase with endpoint := "//https:%2F%2F/foo" }, none) := by decide

/-- C5: validating a configuration whose endpoint is http://127.0.0.1/
succeeds and rewrites the stored endpoint to
http://127.0.0.1/pdb/query/v4/nodes, and validating the already-normalized
configuration succeeds and leaves it unchanged. -/
theorem c5_endpoint_normalization_idempotent :
    validate { handlerBase with endpoint := "http://127.0.0.1/" } eventOK =
      ({ handlerBase with endpoint := "http://127.0.0.1/pdb/query/v4/nodes" }, none) ∧
    validate { handlerBase with endpoint := "http://127.0.0.1/pdb/query/v4/nodes" } eventOK =
      ({ handlerBase with endpoint := "http://127.0.0.1/pdb/query/v4/nodes" }, none) := by
  decide

/-- C6: for every inventory response, HTTP 404 is classified NotExists,
false with no error, and every status code other than 200 and 404 is
classified as an error carrying the HTTP status text, never as a NotExists
or Exists outcome. -/
theorem c6_status_classification :
    ∀ (h : Handler) (e : Entity) (r : HTTPResponse),
      (r.statusCode = 404 → puppetNodeExists h e (.resp r) = .ok false) ∧
      (r.statusCode ≠ 200 → r.statusCode ≠ 404 →
        puppetNodeExists h e (.resp r) =
          .err (.msg ("unexpected HTTP status " ++ statusText r.statusCode ++
            " while querying PuppetDB")) ∧
        ∀ b, puppetNodeExists h e (.resp r) ≠ .ok b) := by
  intro h e r
  constructor
  · intro h404
    simp [puppetNodeExists, h404]
  · intro h200 h404
    constructor
    · simp [puppetNodeExists, h200, h404]
    · intro b
      simp [puppetNodeExists, h200, h404]

/-- C6 witness: a 404 response resolves to NotExists, and a 500 response
resolves to the status-text error. -/
theorem c6_status_classification_w :
    puppetNodeExists handlerBase entFoo
      (.resp { statusCode := 404, bodyJSON := none }) = .ok false ∧
    puppetNodeExists handlerBase entFoo
      (.resp { statusCode := 500, bodyJSON := none }) =
      .err (.msg ("unexpected HTTP status " ++ statusText 500 ++
        " while querying PuppetDB")) :=
  ⟨(c6_status_classification handlerBase entFoo
      { statusCode := 404, bodyJSON := none }).1 rfl,
   ((c6_status_classification handlerBase entFoo
      { statusCode := 500, bodyJSON := none }).2 (by decide) (by decide)).1⟩

/-- C7: whenever the Sensu client configuration is built successfully and
the delete is attempted, a delete failure that is an HTTP error with status
below 500 yields success, while an HTTP error with a 5xx status or a
non-HTTP error is returned to the caller unmodified. -/
theorem c7_delete_error_policy :
    ∀ (h : Handler) (e : Entity) (env : DeregEnv) (cfg : CoreClientConfig),
      deregisterConfig h env = .ok cfg →
      (∀ s, env.deleteOutcome = some (.httpErr s) → s < 500 →
        deregisterEntity h e env = none) ∧
      (∀ s, env.deleteOutcome = some (.httpErr s) → 500 ≤ s →
        deregisterEntity h e env = some (.httpErr s)) ∧
      (∀ m, env.deleteOutcome = some (.msg m) →
        deregisterEntity h e env = some (.msg m)) := by
  intro h e env cfg hcfg
  refine ⟨?_, ?_, ?_⟩
  · intro s hout hlt
    simp [deregisterEntity, hcfg, hout, hlt]
  · intro s hout hge
    have hnlt : ¬ s < 500 := by omega
    simp [deregisterEntity, hcfg, hout, hnlt]
  · intro m hout
    simp [deregisterEntity, hcfg, hout]

/-- C7 witness: with the base configuration, a delete rejected with HTTP 404
is treated as success and a delete rejected with HTTP 500 propagates. -/
theorem c7_delete_error_policy_w :
    deregisterEntity handlerBase entFoo
      { denvOK with deleteOutcome := some (.httpErr 404) } = none ∧
    deregisterEntity handlerBase entFoo
      { denvOK with deleteOutcome := some (.httpErr 500) } =
      some (.httpErr 500) :=
  ⟨((c7_delete_error_policy handlerBase entFoo
      { denvOK with deleteOutcome := some (.httpErr 404) }
      { url := "http://localhost:8080", apiKey := "xxxxxxxxxx",
        caCert := none, insecureSkipVerify := false } rfl).1) 404 rfl (by decide),
   (((c7_delete_error_policy handlerBase entFoo
      { denvOK with deleteOutcome := some (.httpErr 500) }
      { url := "http://localhost:8080", apiKey := "xxxxxxxxxx",
        caCert := none, insecureSkipVerify := false } rfl).2).1) 500 rfl (by decide)⟩

/-- C8: for every event whose check name is not keepalive, the orchestrator
returns success and performs neither the inventory lookup nor the
deregistration call. -/
theorem c8_non_keepalive_noop :
    ∀ (h : Handler) (ev : Event) (penv : PuppetClientEnv) (fetch : FetchResult)
      (denv : DeregEnv) (c : Check) (ent : Entity),
      ev.check = some c → ev.entity = some ent → c.name ≠ "keepalive" →
      executeHandler h ev penv fetch denv =
        (none, { inventoryLookup := false, deregistration := false }) := by
  intro h ev penv fetch denv c ent hc he hname
  simp [executeHandler, hc, he, hname]

/-- C8 witness: an event with check name check-cpu is a successful no-op
with no outbound calls. -/
theorem c8_non_keepalive_noop_w :
    executeHandler handlerBase eventCPU penvOK
      (.resp { statusCode := 200, bodyJSON := some [] }) denvOK =
      (none, { inventoryLookup := false, deregistration := false }) :=
  c8_non_keepalive_noop handlerBase eventCPU penvOK
    (.resp { statusCode := 200, bodyJSON := some [] }) denvOK
    { name := "check-cpu" } entFoo rfl rfl (by decide)

/-- C9: whenever the resolver is invoked (keepalive event, client built) and
classifies the node as Exists, the orchestrator returns success without
calling the deregistrar; whenever it classifies an error, the orchestrator
propagates that error without calling the deregistrar. -/
theorem c9_no_dereg_on_exists_or_error :
    ∀ (h : Handler) (ev : Event) (penv : PuppetClientEnv) (fetch : FetchResult)
      (denv : DeregEnv) (c : Check) (ent : Entity) (client : TLSClientConfig),
      ev.check = some c → ev.entity = some ent → c.name = "keepalive" →
      puppetHTTPClient h penv = .ok client →
      (puppetNodeExists h ent fetch = .ok true →
        executeHandler h ev penv fetch denv =
          (none, { inventoryLookup := true, deregistration := false })) ∧
      (∀ err, puppetNodeExists h ent fetch = .err err →
        executeHandler h ev penv fetch denv =
          (some err, { inventoryLookup := true, deregistration := false })) := by
  intro h ev penv fetch denv c ent client hc he hname hclient
  constructor
  · intro hnode
    simp [executeHandler, hc, he, hname, hclient, hnode]
  · intro err hnode
    simp [executeHandler, hc, he, hname, hclient, hnode]

/-- C9 witness: on a 200 response the resolver yields Exists and the
orchestrator stops with no deregistration; on a 500 response it propagates
the status error with no deregistration. -/
theorem c9_no_dereg_on_exists_or_error_w :
    executeHandler handlerBase eventOK penvOK
      (.resp { statusCode := 200, bodyJSON := some [] }) denvOK =
      (none, { inventoryLookup := true, deregistration := false }) ∧
    executeHandler handlerBase eventOK penvOK
      (.resp { statusCode := 500, bodyJSON := none }) denvOK =
      (some (.msg ("unexpected HTTP status " ++ statusText 500 ++
        " while querying PuppetDB")),
        { inventoryLookup := true, deregistration := false }) :=
  ⟨(c9_no_dereg_on_exists_or_error handlerBase eventOK penvOK
      (.resp { statusCode := 200, bodyJSON := some [] }) denvOK
      { name := "keepalive" } entFoo
      { certificates := [{ certData := "certdata", keyData := "keydata" }],
        rootCAs := "cadata", insecureSkipVerify := false }
      rfl rfl rfl rfl).1 rfl,
   (c9_no_dereg_on_exists_or_error handlerBase eventOK penvOK
      (.resp { statusCode := 500, bodyJSON := none }) denvOK
      { name := "keepalive" } entFoo
      { certificates := [{ certData := "certdata", keyData := "keydata" }],
        rootCAs := "cadata", insecureSkipVerify := false }
      rfl rfl rfl rfl).2 _ rfl⟩

/-- C10: when the insecure-skip-TLS-verify flag is set, both the TLS
configuration of the Puppet inventory client and the Sensu client
configuration built by the deregistrar have verification disabled. -/
theorem c10_insecure_skip_verify_both_clients :
    ∀ (h : Handler) (penv : PuppetClientEnv) (denv : DeregEnv)
      (tls : TLSClientConfig) (cfg : CoreClientConfig),
      h.puppetInsecureSkipVerify = true →
      (puppetHTTPClient h penv = .ok tls → tls.insecureSkipVerify = true) ∧
      (deregisterConfig h denv = .ok cfg → cfg.insecureSkipVerify = true) := by
  intro h penv denv tls cfg hflag
  constructor
  · intro hok
    cases hkp : penv.loadX509KeyPair with
    | error e => simp [puppetHTTPClient, hkp] at hok
    | ok kp =>
      cases hca : penv.readCAFile with
      | error e => simp [puppetHTTPClient, hkp, hca] at hok
      | ok ca =>
        simp [puppetHTTPClient, hkp, hca] at hok
        rw [← hok]
        exact hflag
  · intro hok
    cases hcc : deregisterCACert h denv with
    | error e => simp [deregisterConfig, hcc] at hok
    | ok ca =>
      simp [deregisterConfig, hcc, hflag] at hok
      rw [← hok]

/-- C10 witness: with the flag set and no CA material configured, both
built configurations have verification disabled. -/
theorem c10_insecure_skip_verify_both_clients_w :
    puppetHTTPClient { handlerBase with puppetInsecureSkipVerify := true } penvOK =
      .ok { certificates := [{ certData := "certdata", keyData := "keydata" }],
            rootCAs := "cadata", insecureSkipVerify := true } ∧
    ({ certificates := [{ certData := "certdata", keyData := "keydata" }],
       rootCAs := "cadata", insecureSkipVerify := true } : TLSClientConfig).insecureSkipVerify
      = true ∧
    ({ url := "http://localhost:8080", apiKey := "xxxxxxxxxx", caCert := none,
       insecureSkipVerify := true } : CoreClientConfig).insecureSkipVerify = true :=
  ⟨rfl,
   (c10_insecure_skip_verify_both_clients
      { handlerBase with puppetInsecureSkipVerify := true } penvOK denvOK
      { certificates := [{ certData := "certdata", keyData := "keydata" }],
        rootCAs := "cadata", insecureSkipVerify := true }
      { url := "http://localhost:8080", apiKey := "xxxxxxxxxx", caCert := none,
        insecureSkipVerify := true } rfl).1 rfl,
   (c10_insecure_skip_verify_both_clients
      { handlerBase with puppetInsecureSkipVerify := true } penvOK denvOK
      { certificates := [{ certData := "certdata", keyData := "keydata" }],
        rootCAs := "cadata", insecureSkipVerify := true }
      { url := "http://localhost:8080", apiKey := "xxxxxxxxxx", caCert := none,
        insecureSkipVerify := true } rfl).2 rfl⟩

end PuppetHandler
